import Mathlib

/-!
Shallow embedding of `src/run.py` from the twython-kafka repository: a
polling loop (`main`) that repeatedly queries the Twitter search API and
streams each tweet to Kafka, plus the credential-acquisition routine
(`init_twitter_api`) and the normalization function (`process_entry`).

Upstream interaction is modelled by a script: a list of fetch outcomes,
one per `twitter.search` call, consumed in order. Python integers are
`Int`, Python truthiness of ints and strings is made explicit, and a
`dict` field that the code reads with `d[key]` is an `Option` whose
`none` stands for an absent key (a raised `KeyError`).
-/

namespace TwythonKafka

/-- Truthiness of a Python integer: nonzero is truthy. -/
def intTruthy (n : Int) : Bool := decide (n ≠ 0)

/-- Truthiness of a Python string: nonempty is truthy. -/
def strTruthy (s : String) : Bool := !s.isEmpty

/-- One fetched status (tweet). `id` and `created_at` are `Option` because
the loop reads them with `status["id"]` and `status["created_at"]`, which
raise `KeyError` when the key is absent; `none` models an absent key.
`id_str` and the user's `screen_name` are read only by `process_entry` and
the Kafka key encoding and are modelled as always present. -/
structure Status where
  id : Option Int
  created_at : Option String
  id_str : String
  screen_name : String
  deriving DecidableEq, Repr

/-- The command-line arguments the state machine consults. `get_args`
defaults: `limit = 0`, `max_id = 0`, `since_id = 0`, `output_json = False`;
`kafka_brokers` is a required string whose truthiness gates the producer.
The query-shaping arguments (query, lang, geocode, count, tweet_mode) only
parameterize the upstream request and carry no loop logic. -/
structure Args where
  limit : Int
  max_id : Int
  since_id : Int
  kafka_brokers : Bool
  output_json : Bool
  deriving DecidableEq, Repr

/-- The normalized envelope committed to Kafka. -/
structure NormEnv where
  id : String
  url : String
  deriving DecidableEq, Repr

/-- Embedding of `process_entry` (run.py lines 224-228): builds the
envelope from `entry["id_str"]` and
`"https://twitter.com/%s/status/%s" % (entry["user"]["screen_name"], entry["id_str"])`. -/
def process_entry (entry : Status) : NormEnv :=
  { id := entry.id_str
    url := "https://twitter.com/" ++ entry.screen_name ++ "/status/" ++ entry.id_str }

/-- The mutable state of `main`'s while loop. `sent` records the
`producer.send` calls (Kafka key and envelope), `jout` the records written
to the JSON file, `sleeps` the number of 60-second transient-failure
sleeps, and `queries` the number of `twitter.search` calls issued. -/
structure LoopState where
  max_id : Int
  captured : Nat
  finished : Bool
  results : List Status
  retries : Nat
  sent : List (String × NormEnv)
  jout : List Status
  sleeps : Nat
  queries : Nat
  deriving DecidableEq, Repr

/-- Initial loop state (run.py lines 27-33): the cursor starts at
`args.max_id`; `captured = 0`, `finished = False`, `results = []`. -/
def initState (args : Args) : LoopState :=
  { max_id := args.max_id, captured := 0, finished := false, results := []
    retries := 0, sent := [], jout := [], sleeps := 0, queries := 0 }

/-- run.py line 87: `cond1 = (args.limit and int(captured) >= int(args.limit))`. -/
def cond1 (args : Args) (captured : Nat) : Bool :=
  intTruthy args.limit && decide ((captured : Int) ≥ args.limit)

/-- run.py line 88: `cond2 = (args.max_id and int(max_id) >= int(args.max_id))`. -/
def cond2 (args : Args) (max_id : Int) : Bool :=
  intTruthy args.max_id && decide (max_id ≥ args.max_id)

/-- run.py line 89: `cond3 = (args.since_id and int(max_id) <= int(args.since_id))`. -/
def cond3 (args : Args) (max_id : Int) : Bool :=
  intTruthy args.since_id && decide (max_id ≤ args.since_id)

/-- The short-circuit test `if status["id"] and status["created_at"]:`
(run.py line 70): a falsy `id` never evaluates `status["created_at"]`;
a truthy `id` with an absent `created_at` key raises `KeyError`. -/
def truthyCheck (i : Int) (ca : Option String) : Except String Bool :=
  if intTruthy i then
    match ca with
    | none => Except.error "created_at"
    | some c => Except.ok (strTruthy c)
  else Except.ok false

/-- The state updates of the `for status in results:` body once the field
reads have succeeded (run.py lines 68-93): set the cursor to the record's
id minus one, then either forward the record (producer.send when
kafka_brokers is truthy, json.dump when output_json is truthy) and bump
`captured`, or (invalid record) only log; finally evaluate the three
terminal conditions and set `finished` when any holds. The 10-second
progress log (lines 82-85) is output-only and carries no state the claims
mention. -/
def applyRecord (args : Args) (st : LoopState) (status : Status) (i : Int) (valid : Bool) :
    LoopState :=
  let st1 : LoopState := { st with max_id := i - 1 }
  let st2 : LoopState :=
    if valid then
      { st1 with
        sent := if args.kafka_brokers then
            st1.sent ++ [(status.id_str, process_entry status)]
          else st1.sent
        jout := if args.output_json then st1.jout ++ [status] else st1.jout
        captured := st1.captured + 1 }
    else st1
  if cond1 args st2.captured || cond2 args st2.max_id || cond3 args st2.max_id then
    { st2 with finished := true }
  else st2

/-- One pass of the `for status in results:` body (run.py lines 67-93).
`max_id = status["id"] - 1` raises `KeyError` if the `id` key is absent,
and the validity test raises for a truthy id with an absent `created_at`
key; in the pure model the field reads are performed before the cursor
write, which is observationally equivalent because a `KeyError` aborts
the whole run (the except handler re-raises it, see `iterate`). -/
def recordStep (args : Args) (st : LoopState) (status : Status) : Except String LoopState :=
  match status.id with
  | none => Except.error "id"
  | some i =>
    match truthyCheck i status.created_at with
    | Except.error k => Except.error k
    | Except.ok valid => Except.ok (applyRecord args st status i valid)

/-- The `for status in results:` loop with the mid-page `break` (run.py
lines 67-93): a record whose step sets `finished` stops the page, leaving
the rest of the already-fetched page unprocessed. -/
def processRecords (args : Args) (st : LoopState) : List Status → Except String LoopState
  | [] => Except.ok st
  | s :: rest =>
    match recordStep args st s with
    | Except.error k => Except.error k
    | Except.ok st1 => if st1.finished then Except.ok st1 else processRecords args st1 rest

/-- Outcome of one `twitter.search` call, as classified by the except
handler's string matching (run.py lines 95-117): a page of statuses, a
429, a 500/503, a 401/403/404, or any other exception. -/
inductive FetchResult where
  | page (statuses : List Status)
  | rateLimited
  | transient
  | permanent
  | unclassified
  deriving DecidableEq, Repr

/-- run.py line 32: `max_retries = 3`. -/
def max_retries : Nat := 3

/-- Result of one while-loop iteration: continue looping, exit the loop
normally (the `finished` flag or a `break`), or re-raise an exception that
no handler pattern matched, crashing the run. -/
inductive IterResult where
  | next (st : LoopState)
  | done (st : LoopState)
  | crash (key : String)
  deriving DecidableEq, Repr

/-- One iteration of `while not finished:` (run.py lines 47-117).
`previous_results = results` and `retries = 0` run at the top; then one
search call is issued (`queries` counts them all, including the failed
ones). An empty page or a page equal to the previous one sets `finished`
and breaks; otherwise the page is processed record by record. On a 429
the API is re-initialized and the loop retries the same cursor; on a
500/503 the `retries == max_retries` test is made (with `retries` still 0,
as the code never increments it) and otherwise the loop sleeps 60 seconds
and retries; on a 401/403/404 the loop breaks; any other exception is
re-raised. -/
def iterate (args : Args) (st : LoopState) (f : FetchResult) : IterResult :=
  let prev := st.results
  let st := { st with retries := 0, queries := st.queries + 1 }
  match f with
  | FetchResult.page rs =>
    if rs = [] ∨ prev = rs then
      IterResult.done { st with results := rs, finished := true }
    else
      match processRecords args { st with results := rs } rs with
      | Except.error k => IterResult.crash k
      | Except.ok st1 => if st1.finished then IterResult.done st1 else IterResult.next st1
  | FetchResult.rateLimited => IterResult.next st
  | FetchResult.transient =>
    if st.retries = max_retries then
      IterResult.done { st with retries := 0 }
    else
      IterResult.next { st with sleeps := st.sleeps + 1 }
  | FetchResult.permanent => IterResult.done st
  | FetchResult.unclassified => IterResult.crash "unclassified"

/-- Result of a whole run against a finite script of fetch outcomes:
the loop exits normally, the run crashes on an unhandled exception, or
the script ends while the loop still wants to issue another query. -/
inductive RunResult where
  | finished (st : LoopState)
  | crash (key : String)
  | outOfScript (st : LoopState)
  deriving DecidableEq, Repr

/-- The `while not finished:` loop of `main`, driven by a script of fetch
outcomes consumed one per iteration. -/
def run (args : Args) : List FetchResult → LoopState → RunResult
  | [], st => if st.finished then RunResult.finished st else RunResult.outOfScript st
  | f :: rest, st =>
    if st.finished then RunResult.finished st
    else
      match iterate args st f with
      | IterResult.next st1 => run args rest st1
      | IterResult.done st1 => RunResult.finished st1
      | IterResult.crash k => RunResult.crash k

/-- Outcome of probing one credential pair inside `init_twitter_api`
(run.py lines 142-163): a successful rate-limit probe reporting the
remaining request count and the reset epoch, a `TwythonRateLimitError`
(silently skipped), or any other exception (logged and skipped). -/
inductive ProbeResult where
  | ok (remaining : Nat) (reset : Int)
  | rateLimitError
  | err
  deriving DecidableEq, Repr

/-- Result of one pass of `init_twitter_api`'s while loop over all
credentials: return the i-th credential's authenticated client, or sleep
for `tts` seconds and re-probe. -/
inductive AcquireResult where
  | acquired (i : Nat)
  | sleepFor (tts : Int)
  deriving DecidableEq, Repr

/-- The `for i in range(len(client_id)):` loop of `init_twitter_api`
(run.py lines 142-167): the first credential whose probe reports a truthy
`remaining` is returned; an exhausted credential lowers `tts` to
`resource["reset"] - int(time.time()) + 1` when that is smaller; a probe
that raises is skipped. After the loop `remaining` is necessarily 0 (a
truthy value returned immediately), so the code always sleeps `tts`. -/
def acquireLoop (now : Int) (i : Nat) (tts : Int) : List ProbeResult → AcquireResult
  | [] => AcquireResult.sleepFor tts
  | p :: rest =>
    match p with
    | ProbeResult.ok remaining reset =>
      if remaining ≠ 0 then AcquireResult.acquired i
      else
        let r := reset - now + 1
        acquireLoop now (i + 1) (if tts > r then r else tts) rest
    | _ => acquireLoop now (i + 1) tts rest

/-- One pass of `init_twitter_api`'s outer `while True:` loop: `tts` is
reset to 900 (run.py line 140) before the credentials are probed. -/
def init_twitter_api_pass (now : Int) (probes : List ProbeResult) : AcquireResult :=
  acquireLoop now 0 900 probes

/-- An exhausted probe outcome: a successful probe reporting 0 remaining
requests, or a failed probe (which contributes nothing to the wait). -/
def probeExhausted : ProbeResult → Bool
  | ProbeResult.ok r _ => decide (r = 0)
  | _ => true

/-- The wait contribution of one probe: `reset - now + 1` for a
successful probe, nothing for a failed one. -/
def probeDelta (now : Int) : ProbeResult → Option Int
  | ProbeResult.ok _ reset => some (reset - now + 1)
  | _ => none

/-- Helper view of a run result: the final loop state when the run did
not crash. -/
def capturedOfResult : RunResult → Option Nat
  | RunResult.finished st => some st.captured
  | RunResult.outOfScript st => some st.captured
  | RunResult.crash _ => none

/-- The cursor after a record step is always the record's id minus one,
for valid and invalid records alike. -/
theorem applyRecord_max_id (args : Args) (st : LoopState) (s : Status) (i : Int)
    (valid : Bool) : (applyRecord args st s i valid).max_id = i - 1 := by
  cases valid <;> cases hk : args.kafka_brokers <;> cases hj : args.output_json <;>
    simp [applyRecord, hk, hj] <;> split <;> rfl

/-- The captured count after a record step grows by one exactly for a
valid record. -/
theorem applyRecord_captured (args : Args) (st : LoopState) (s : Status) (i : Int)
    (valid : Bool) :
    (applyRecord args st s i valid).captured =
      if valid then st.captured + 1 else st.captured := by
  cases valid <;> cases hk : args.kafka_brokers <;> cases hj : args.output_json <;>
    simp [applyRecord, hk, hj] <;> split <;> rfl

/-- The Kafka sends after a record step: the record's envelope is appended
exactly when the record is valid and a broker is configured. -/
theorem applyRecord_sent (args : Args) (st : LoopState) (s : Status) (i : Int)
    (valid : Bool) :
    (applyRecord args st s i valid).sent =
      if valid && args.kafka_brokers then st.sent ++ [(s.id_str, process_entry s)]
      else st.sent := by
  cases valid <;> cases hk : args.kafka_brokers <;> cases hj : args.output_json <;>
    simp [applyRecord, hk, hj] <;> split <;> simp_all

/-- The JSON-file writes after a record step. -/
theorem applyRecord_jout (args : Args) (st : LoopState) (s : Status) (i : Int)
    (valid : Bool) :
    (applyRecord args st s i valid).jout =
      if valid && args.output_json then st.jout ++ [s] else st.jout := by
  cases valid <;> cases hk : args.kafka_brokers <;> cases hj : args.output_json <;>
    simp [applyRecord, hk, hj] <;> split <;> simp_all

/-- The finished flag after a record step: the three terminal conditions
evaluated on the updated captured count and cursor, or the flag already
set. -/
theorem applyRecord_finished (args : Args) (st : LoopState) (s : Status) (i : Int)
    (valid : Bool) :
    (applyRecord args st s i valid).finished =
      (cond1 args (if valid then st.captured + 1 else st.captured) ||
        cond2 args (i - 1) || cond3 args (i - 1) || st.finished) := by
  cases valid <;> cases hk : args.kafka_brokers <;> cases hj : args.output_json <;>
    simp [applyRecord, hk, hj] <;> split <;> simp_all

/-- A record step leaves the fields the for-loop body never writes
unchanged. -/
theorem applyRecord_frame (args : Args) (st : LoopState) (s : Status) (i : Int)
    (valid : Bool) :
    (applyRecord args st s i valid).results = st.results ∧
    (applyRecord args st s i valid).retries = st.retries ∧
    (applyRecord args st s i valid).sleeps = st.sleeps ∧
    (applyRecord args st s i valid).queries = st.queries := by
  refine ⟨?_, ?_, ?_, ?_⟩ <;> cases valid <;> cases hk : args.kafka_brokers <;>
    cases hj : args.output_json <;> simp [applyRecord, hk, hj] <;> split <;> rfl

/-- A successful record step is an `applyRecord` on the record's id and
the outcome of the truthiness test. -/
theorem recordStep_ok_char {args : Args} {st : LoopState} {s : Status} {st' : LoopState}
    (h : recordStep args st s = Except.ok st') :
    ∃ i valid, s.id = some i ∧ truthyCheck i s.created_at = Except.ok valid ∧
      st' = applyRecord args st s i valid := by
  cases hid : s.id with
  | none => simp [recordStep, hid] at h
  | some i =>
    cases hv : truthyCheck i s.created_at with
    | error k => simp [recordStep, hid, hv] at h
    | ok valid =>
      simp only [recordStep, hid, hv, Except.ok.injEq] at h
      exact ⟨i, valid, rfl, hv, h.symm⟩

/-- The truthiness test classifies a record with a falsy id, or with a
present but falsy created_at, as invalid (without raising). -/
theorem truthyCheck_invalid {i : Int} {ca : Option String}
    (h : intTruthy i = false ∨ ∃ c, ca = some c ∧ strTruthy c = false) :
    truthyCheck i ca = Except.ok false := by
  rcases h with h | ⟨c, hc, hct⟩
  · simp [truthyCheck, h]
  · subst hc
    cases hb : intTruthy i <;> simp [truthyCheck, hb, hct]

/-- A zero capture limit makes cond1 false. -/
theorem cond1_zero {args : Args} (captured : Nat) (h : args.limit = 0) :
    cond1 args captured = false := by
  simp [cond1, intTruthy, h]

/-- A zero max-id bound makes cond2 false. -/
theorem cond2_zero {args : Args} (m : Int) (h : args.max_id = 0) :
    cond2 args m = false := by
  simp [cond2, intTruthy, h]

/-- A zero since-id bound makes cond3 false. -/
theorem cond3_zero {args : Args} (m : Int) (h : args.since_id = 0) :
    cond3 args m = false := by
  simp [cond3, intTruthy, h]

/-- Claim C9: for every valid fetched record the normalization is the
deterministic envelope built from `id_str` and the user's screen name,
and on `{id_str: "42", user: {screen_name: "alice"}}` it yields exactly
`{"id": "42", "url": "https://twitter.com/alice/status/42"}`. -/
theorem c9_process_entry_round_trip :
    (∀ e : Status, process_entry e =
      { id := e.id_str
        url := "https://twitter.com/" ++ e.screen_name ++ "/status/" ++ e.id_str }) ∧
    process_entry { id := some 42, created_at := some "d", id_str := "42", screen_name := "alice" } =
      { id := "42", url := "https://twitter.com/alice/status/42" } :=
  ⟨fun _ => rfl, rfl⟩

/-- Claim C10: a capture limit, max-id bound or since-id bound configured
as 0 (its default) disables the corresponding terminal condition: the
condition is false for every captured count and every cursor value, and
with all three at 0 a record step never sets the finished flag. -/
theorem c10_zero_defaults_disable :
    ∀ (args : Args) (captured : Nat) (m : Int) (st : LoopState) (s : Status) (st' : LoopState),
      (args.limit = 0 → cond1 args captured = false) ∧
      (args.max_id = 0 → cond2 args m = false) ∧
      (args.since_id = 0 → cond3 args m = false) ∧
      (args.limit = 0 → args.max_id = 0 → args.since_id = 0 →
        recordStep args st s = Except.ok st' → st'.finished = st.finished) := by
  intro args captured m st s st'
  refine ⟨?_, ?_, ?_, ?_⟩
  · intro h; simp [cond1, intTruthy, h]
  · intro h; simp [cond2, intTruthy, h]
  · intro h; simp [cond3, intTruthy, h]
  · intro h1 h2 h3 h
    obtain ⟨i, valid, hid, hv, rfl⟩ := recordStep_ok_char h
    rw [applyRecord_finished]
    simp [cond1_zero _ h1, cond2_zero _ h2, cond3_zero _ h3]

/-- Witness for c10_zero_defaults_disable at concrete inputs. -/
theorem c10_zero_defaults_disable_witness :
    cond1 ⟨0, 0, 0, false, false⟩ 1000000 = false ∧
    cond2 ⟨0, 0, 0, false, false⟩ (-1000000) = false ∧
    cond3 ⟨0, 0, 0, false, false⟩ (-1000000) = false ∧
    (⟨-1000001, 1000001, false, [], 0, [], [], 0, 0⟩ : LoopState).finished =
      (⟨500, 1000000, false, [], 0, [], [], 0, 0⟩ : LoopState).finished :=
  ⟨(c10_zero_defaults_disable ⟨0, 0, 0, false, false⟩ 1000000 (-1000000)
      ⟨500, 1000000, false, [], 0, [], [], 0, 0⟩ ⟨some (-1000000), some "a", "x", "u"⟩
      ⟨-1000001, 1000001, false, [], 0, [], [], 0, 0⟩).1 rfl,
   (c10_zero_defaults_disable ⟨0, 0, 0, false, false⟩ 1000000 (-1000000)
      ⟨500, 1000000, false, [], 0, [], [], 0, 0⟩ ⟨some (-1000000), some "a", "x", "u"⟩
      ⟨-1000001, 1000001, false, [], 0, [], [], 0, 0⟩).2.1 rfl,
   (c10_zero_defaults_disable ⟨0, 0, 0, false, false⟩ 1000000 (-1000000)
      ⟨500, 1000000, false, [], 0, [], [], 0, 0⟩ ⟨some (-1000000), some "a", "x", "u"⟩
      ⟨-1000001, 1000001, false, [], 0, [], [], 0, 0⟩).2.2.1 rfl,
   (c10_zero_defaults_disable ⟨0, 0, 0, false, false⟩ 1000000 (-1000000)
      ⟨500, 1000000, false, [], 0, [], [], 0, 0⟩ ⟨some (-1000000), some "a", "x", "u"⟩
      ⟨-1000001, 1000001, false, [], 0, [], [], 0, 0⟩).2.2.2 rfl rfl rfl rfl⟩

/-- Claim C1 counterexample: with max-id bound L = 10 the first record
moves the tracked cursor to 4 ≤ 10, yet the loop does not terminate — it
is still polling when the script ends (the code tests
`max_id >= args.max_id`, not `<=`). -/
theorem c1_counterexample :
    run ⟨0, 10, 0, false, false⟩ [FetchResult.page [⟨some 5, some "a", "5", "u"⟩]]
        (initState ⟨0, 10, 0, false, false⟩) =
      RunResult.outOfScript
        { max_id := 4, captured := 1, finished := false
          results := [⟨some 5, some "a", "5", "u"⟩]
          retries := 0, sent := [], jout := [], sleeps := 0, queries := 1 } ∧
    (4 : Int) ≤ 10 ∧ (10 : Int) ≠ 0 :=
  ⟨rfl, by decide, by decide⟩

/-- Claim C2, evaluation at the failing input: on four consecutive
transient failures the loop sleeps four times and issues a fifth query —
`retries` is reset to 0 every iteration and never incremented, so the
`retries == max_retries` cutoff is unreachable and a 4th retry occurs. -/
theorem c2_unbounded_retry_code_eval :
    run ⟨0, 0, 0, false, false⟩
        [FetchResult.transient, FetchResult.transient, FetchResult.transient,
         FetchResult.transient, FetchResult.page []]
        (initState ⟨0, 0, 0, false, false⟩) =
      RunResult.finished
        { max_id := 0, captured := 0, finished := true, results := []
          retries := 0, sent := [], jout := [], sleeps := 4, queries := 5 } ∧
    4 > max_retries - 1 :=
  ⟨rfl, by decide⟩

/-- Claim C3, evaluation at the failing input: a page whose record lacks
the `created_at` key makes the run crash with the re-raised KeyError
instead of dropping the record and continuing. -/
theorem c3_missing_field_code_eval :
    run ⟨0, 0, 0, true, false⟩ [FetchResult.page [⟨some 100, none, "100", "u"⟩]]
        (initState ⟨0, 0, 0, true, false⟩) =
      RunResult.crash "created_at" :=
  rfl

/-- Claim C4 counterexample: on the page with ids [5, 10] (all limits
disabled, no mid-page break) the cursor ends at 9 = 10 - 1, the last
record's id minus one — not min(5, 10) - 1 = 4. -/
theorem c4_counterexample :
    processRecords ⟨0, 0, 0, false, false⟩ (initState ⟨0, 0, 0, false, false⟩)
        [⟨some 5, some "a", "5", "u"⟩, ⟨some 10, some "b", "10", "u"⟩] =
      Except.ok
        { max_id := 9, captured := 2, finished := false, results := []
          retries := 0, sent := [], jout := [], sleeps := 0, queries := 0 } ∧
    (9 : Int) ≠ min 5 10 - 1 :=
  ⟨rfl, by decide⟩

/-- Claim C5 counterexample: two consecutive pages with identical
record-id sets but different order are not detected as exhaustion — the
second page is processed in full (captured grows from 2 to 4) and the
loop keeps polling, because the code compares the raw result lists for
equality, not their id sets. -/
theorem c5_counterexample :
    run ⟨0, 0, 0, false, false⟩
        [FetchResult.page [⟨some 1, some "a", "1", "ua"⟩, ⟨some 2, some "b", "2", "ub"⟩],
         FetchResult.page [⟨some 2, some "b", "2", "ub"⟩, ⟨some 1, some "a", "1", "ua"⟩]]
        (initState ⟨0, 0, 0, false, false⟩) =
      RunResult.outOfScript
        { max_id := 0, captured := 4, finished := false
          results := [⟨some 2, some "b", "2", "ub"⟩, ⟨some 1, some "a", "1", "ua"⟩]
          retries := 0, sent := [], jout := [], sleeps := 0, queries := 2 } ∧
    (List.map Status.id
        [⟨some 1, some "a", "1", "ua"⟩, ⟨some 2, some "b", "2", "ub"⟩]).toFinset =
      (List.map Status.id
        [⟨some 2, some "b", "2", "ub"⟩, ⟨some 1, some "a", "1", "ua"⟩]).toFinset ∧
    (4 : Nat) ≠ 2 :=
  ⟨rfl, by decide, by decide⟩

/-- Claim C7 counterexample: an invalid record (truthy id 100, falsy
`created_at`) does not leave the loop state unchanged — the cursor moves
from 500 to 99 (the record's id minus one), though captured stays 7. -/
theorem c7_counterexample :
    recordStep ⟨0, 0, 0, true, false⟩ ⟨500, 7, false, [], 0, [], [], 0, 0⟩
        ⟨some 100, some "", "100", "u"⟩ =
      Except.ok
        { max_id := 99, captured := 7, finished := false, results := []
          retries := 0, sent := [], jout := [], sleeps := 0, queries := 0 } ∧
    (99 : Int) ≠ 500 :=
  ⟨rfl, by decide⟩

/-- Claim C8 counterexample: with a single exhausted credential whose
quota resets 999 seconds from now, the pass sleeps 900 seconds (the
per-pass cap initialized at `tts = 900`), not the claimed
`reset - now + 1 = 1000`. -/
theorem c8_counterexample :
    init_twitter_api_pass 0 [ProbeResult.ok 0 999] = AcquireResult.sleepFor 900 ∧
    (900 : Int) ≠ 999 - 0 + 1 :=
  ⟨rfl, by decide⟩

/-- Claim C1 amended: with a nonzero max-id bound and the other two
bounds disabled, a record step breaks the loop exactly when the updated
cursor (the record's id minus one) is greater than or equal to the bound
— i.e. only when a record's id exceeds the bound; the cursor moving to or
below the bound does not terminate the loop. -/
theorem c1_amended :
    ∀ (args : Args) (st : LoopState) (s : Status) (st' : LoopState) (i : Int),
      intTruthy args.max_id = true → args.limit = 0 → args.since_id = 0 →
      st.finished = false → s.id = some i →
      recordStep args st s = Except.ok st' →
      ((st'.finished = true ↔ i - 1 ≥ args.max_id) ∧ st'.max_id = i - 1) := by
  intro args st s st' i hL hlim hsin hfin hid h
  obtain ⟨i2, valid, hid2, hv, rfl⟩ := recordStep_ok_char h
  rw [hid] at hid2
  injection hid2 with hi
  subst hi
  constructor
  · rw [applyRecord_finished, hfin]
    simp [cond1_zero _ hlim, cond3_zero _ hsin, cond2, hL]
  · exact applyRecord_max_id ..

/-- Witness for c1_amended: bound 10, record id 20 — the step breaks and
the cursor is 19. -/
theorem c1_amended_witness :
    ((⟨19, 1, true, [], 0, [], [], 0, 0⟩ : LoopState).finished = true ↔
      (20 : Int) - 1 ≥ (10 : Int)) ∧
    (⟨19, 1, true, [], 0, [], [], 0, 0⟩ : LoopState).max_id = 20 - 1 :=
  c1_amended ⟨0, 10, 0, false, false⟩ (initState ⟨0, 10, 0, false, false⟩)
    ⟨some 20, some "x", "20", "u"⟩ ⟨19, 1, true, [], 0, [], [], 0, 0⟩ 20
    (by decide) rfl rfl rfl rfl rfl

/-- Claim C7 amended: an invalid record (falsy id, or present but falsy
created_at) is not forwarded to any sink and leaves captured unchanged,
but it does move the cursor to its id minus one, and the terminal
conditions are still evaluated on the updated cursor — so it can change
the terminal decision. -/
theorem c7_amended :
    ∀ (args : Args) (st : LoopState) (s : Status) (st' : LoopState) (i : Int),
      s.id = some i →
      recordStep args st s = Except.ok st' →
      (intTruthy i = false ∨ ∃ c, s.created_at = some c ∧ strTruthy c = false) →
      st'.captured = st.captured ∧ st'.sent = st.sent ∧ st'.jout = st.jout ∧
      st'.max_id = i - 1 ∧
      st'.finished = (cond1 args st.captured || cond2 args (i - 1) ||
        cond3 args (i - 1) || st.finished) := by
  intro args st s st' i hid h hinv
  obtain ⟨i2, valid, hid2, hv, rfl⟩ := recordStep_ok_char h
  rw [hid] at hid2
  injection hid2 with hi
  subst hi
  have hval : valid = false := by
    have h2 := truthyCheck_invalid hinv
    rw [hv] at h2
    exact Except.ok.inj h2
  subst hval
  refine ⟨?_, ?_, ?_, ?_, ?_⟩
  · rw [applyRecord_captured]; simp
  · rw [applyRecord_sent]; simp
  · rw [applyRecord_jout]; simp
  · exact applyRecord_max_id ..
  · rw [applyRecord_finished]; simp

/-- Witness for c7_amended: invalid record id 100 with empty created_at,
from cursor 500 — captured and sinks unchanged, cursor moved to 99. -/
theorem c7_amended_witness :
    (⟨99, 7, false, [], 0, [], [], 0, 0⟩ : LoopState).captured =
      (⟨500, 7, false, [], 0, [], [], 0, 0⟩ : LoopState).captured ∧
    (⟨99, 7, false, [], 0, [], [], 0, 0⟩ : LoopState).sent =
      (⟨500, 7, false, [], 0, [], [], 0, 0⟩ : LoopState).sent ∧
    (⟨99, 7, false, [], 0, [], [], 0, 0⟩ : LoopState).jout =
      (⟨500, 7, false, [], 0, [], [], 0, 0⟩ : LoopState).jout ∧
    (⟨99, 7, false, [], 0, [], [], 0, 0⟩ : LoopState).max_id = 100 - 1 ∧
    (⟨99, 7, false, [], 0, [], [], 0, 0⟩ : LoopState).finished =
      (cond1 ⟨0, 0, 0, true, false⟩
          (⟨500, 7, false, [], 0, [], [], 0, 0⟩ : LoopState).captured ||
        cond2 ⟨0, 0, 0, true, false⟩ (100 - 1) ||
        cond3 ⟨0, 0, 0, true, false⟩ (100 - 1) ||
        (⟨500, 7, false, [], 0, [], [], 0, 0⟩ : LoopState).finished) :=
  c7_amended ⟨0, 0, 0, true, false⟩ ⟨500, 7, false, [], 0, [], [], 0, 0⟩
    ⟨some 100, some "", "100", "u"⟩ ⟨99, 7, false, [], 0, [], [], 0, 0⟩ 100
    rfl rfl (Or.inr ⟨"", rfl, rfl⟩)

/-- Claim C5 amended: an empty page, or a page equal to the previous page
as a raw list of full records (same records, same order — the code's
`previous_results == results` test), is treated as natural exhaustion:
the iteration finishes without forwarding anything and without touching
captured. -/
theorem c5_amended :
    ∀ (args : Args) (st : LoopState) (rs : List Status),
      rs = [] ∨ st.results = rs →
      ∃ st', iterate args st (FetchResult.page rs) = IterResult.done st' ∧
        st'.finished = true ∧ st'.captured = st.captured ∧ st'.sent = st.sent ∧
        st'.results = rs := by
  intro args st rs hdup
  refine ⟨{ st with retries := 0, queries := st.queries + 1, results := rs, finished := true },
    ?_, rfl, rfl, rfl, rfl⟩
  simp only [iterate]
  rw [if_pos hdup]

/-- Witness for c5_amended: a page identical to the previous one finishes
the loop with captured still 3 and nothing sent. -/
theorem c5_amended_witness :
    ∃ st', iterate ⟨0, 0, 0, false, false⟩
        ⟨50, 3, false, [⟨some 7, some "a", "7", "u"⟩], 0, [], [], 0, 1⟩
        (FetchResult.page [⟨some 7, some "a", "7", "u"⟩]) = IterResult.done st' ∧
      st'.finished = true ∧
      st'.captured = (⟨50, 3, false, [⟨some 7, some "a", "7", "u"⟩], 0, [], [], 0, 1⟩ :
        LoopState).captured ∧
      st'.sent = (⟨50, 3, false, [⟨some 7, some "a", "7", "u"⟩], 0, [], [], 0, 1⟩ :
        LoopState).sent ∧
      st'.results = [⟨some 7, some "a", "7", "u"⟩] :=
  c5_amended ⟨0, 0, 0, false, false⟩
    ⟨50, 3, false, [⟨some 7, some "a", "7", "u"⟩], 0, [], [], 0, 1⟩
    [⟨some 7, some "a", "7", "u"⟩] (Or.inr rfl)

/-- A successful record step puts the cursor at the record's id minus
one. -/
theorem recordStep_max_id {args : Args} {st : LoopState} {s : Status} {st1 : LoopState}
    (h : recordStep args st s = Except.ok st1) :
    ∃ i, s.id = some i ∧ st1.max_id = i - 1 := by
  obtain ⟨i, valid, hid, hv, rfl⟩ := recordStep_ok_char h
  exact ⟨i, hid, applyRecord_max_id ..⟩

/-- Claim C4 amended: after a non-empty page processed to completion (no
mid-page break), the cursor equals the id of the LAST record of the page
minus one — which is min(record_id) - 1 exactly when the page is ordered
newest-to-oldest, but not in general. -/
theorem c4_amended :
    ∀ (args : Args) (page : List Status) (st st' : LoopState),
      processRecords args st page = Except.ok st' → st'.finished = false → page ≠ [] →
      ∃ s i, page.getLast? = some s ∧ s.id = some i ∧ st'.max_id = i - 1 := by
  intro args page
  induction page with
  | nil => intro st st' h hf hne; exact absurd rfl hne
  | cons s rest ih =>
    intro st st' h hf hne
    simp only [processRecords] at h
    cases hr : recordStep args st s with
    | error k => simp [hr] at h
    | ok st1 =>
      simp only [hr] at h
      by_cases hb : st1.finished = true
      · rw [if_pos hb] at h
        injection h with h1
        subst h1
        simp [hf] at hb
      · rw [if_neg hb] at h
        cases rest with
        | nil =>
          simp only [processRecords] at h
          injection h with h1
          subst h1
          obtain ⟨i, hid, hmax⟩ := recordStep_max_id hr
          exact ⟨s, i, rfl, hid, hmax⟩
        | cons r rest2 =>
          obtain ⟨s2, i, hlast, hid, hmax⟩ := ih st1 st' h hf (by simp)
          exact ⟨s2, i, by rw [List.getLast?_cons_cons]; exact hlast, hid, hmax⟩

/-- Witness for c4_amended: the page with ids [10, 5] ends with the
cursor at 4 = 5 - 1, the last record's id minus one. -/
theorem c4_amended_witness :
    ∃ s i, ([⟨some 10, some "b", "10", "u"⟩, ⟨some 5, some "a", "5", "u"⟩] :
        List Status).getLast? = some s ∧ s.id = some i ∧
      (⟨4, 2, false, [], 0, [], [], 0, 0⟩ : LoopState).max_id = i - 1 :=
  c4_amended ⟨0, 0, 0, false, false⟩
    [⟨some 10, some "b", "10", "u"⟩, ⟨some 5, some "a", "5", "u"⟩]
    (initState ⟨0, 0, 0, false, false⟩) ⟨4, 2, false, [], 0, [], [], 0, 0⟩
    rfl rfl (by simp)

/-- With a positive capture limit, a record step from a state strictly
below the limit stays at or below it, and strictly below it whenever the
step did not set finished. -/
theorem applyRecord_captured_le {args : Args} {st : LoopState} (s : Status) (i : Int)
    (valid : Bool) (hpos : 0 < args.limit) (hlt : (st.captured : Int) < args.limit) :
    ((applyRecord args st s i valid).captured : Int) ≤ args.limit ∧
    ((applyRecord args st s i valid).finished = false →
      ((applyRecord args st s i valid).captured : Int) < args.limit) := by
  rw [applyRecord_captured, applyRecord_finished]
  constructor
  · cases valid <;> simp <;> omega
  · intro hfin
    have hT : intTruthy args.limit = true := by
      simp only [intTruthy, decide_eq_true_eq]
      omega
    simp only [Bool.or_eq_false_iff] at hfin
    have hc1 : cond1 args (if valid then st.captured + 1 else st.captured) = false :=
      hfin.1.1.1
    simp only [cond1, hT, Bool.true_and, decide_eq_false_iff_not, not_le] at hc1
    exact hc1

/-- With a positive capture limit, a page processed from strictly below
the limit ends at or below it, and strictly below it when no break
occurred. -/
theorem processRecords_captured_le {args : Args} (hpos : 0 < args.limit) :
    ∀ (page : List Status) (st st' : LoopState), (st.captured : Int) < args.limit →
      processRecords args st page = Except.ok st' →
      ((st'.captured : Int) ≤ args.limit ∧
        (st'.finished = false → (st'.captured : Int) < args.limit)) := by
  intro page
  induction page with
  | nil =>
    intro st st' hlt h
    simp only [processRecords, Except.ok.injEq] at h
    subst h
    exact ⟨le_of_lt hlt, fun _ => hlt⟩
  | cons s rest ih =>
    intro st st' hlt h
    simp only [processRecords] at h
    cases hr : recordStep args st s with
    | error k => simp [hr] at h
    | ok st1 =>
      simp only [hr] at h
      obtain ⟨i, valid, hid, hv, hst1⟩ := recordStep_ok_char hr
      have hb := applyRecord_captured_le s i valid hpos hlt
      rw [← hst1] at hb
      by_cases hfin : st1.finished = true
      · rw [if_pos hfin] at h
        injection h with h1
        subst h1
        exact ⟨hb.1, fun hf => by simp [hf] at hfin⟩
      · rw [if_neg hfin] at h
        exact ih st1 st' (hb.2 (by simpa using hfin)) h

/-- A loop iteration that continues keeps captured strictly below a
positive limit. -/
theorem iterate_next_captured {args : Args} (hpos : 0 < args.limit) {st : LoopState}
    {f : FetchResult} {st1 : LoopState} (hlt : (st.captured : Int) < args.limit)
    (h : iterate args st f = IterResult.next st1) :
    (st1.captured : Int) < args.limit := by
  cases f <;> simp only [iterate] at h
  case page rs =>
    split at h
    · exact IterResult.noConfusion h
    · split at h
      · exact IterResult.noConfusion h
      · rename_i stx hpr
        split at h
        · exact IterResult.noConfusion h
        · rename_i hfin
          injection h with h1
          subst h1
          exact (processRecords_captured_le hpos rs _ stx (by exact hlt) hpr).2
            (by simpa using hfin)
  case rateLimited =>
    injection h with h1
    subst h1
    exact hlt
  case transient =>
    split at h
    · exact IterResult.noConfusion h
    · injection h with h1
      subst h1
      exact hlt
  case permanent => exact IterResult.noConfusion h
  case unclassified => exact IterResult.noConfusion h

/-- A loop iteration that exits keeps captured at or below a positive
limit. -/
theorem iterate_done_captured {args : Args} (hpos : 0 < args.limit) {st : LoopState}
    {f : FetchResult} {st1 : LoopState} (hlt : (st.captured : Int) < args.limit)
    (h : iterate args st f = IterResult.done st1) :
    (st1.captured : Int) ≤ args.limit := by
  cases f <;> simp only [iterate] at h
  case page rs =>
    split at h
    · injection h with h1
      subst h1
      exact le_of_lt hlt
    · split at h
      · exact IterResult.noConfusion h
      · rename_i stx hpr
        split at h
        · injection h with h1
          subst h1
          exact (processRecords_captured_le hpos rs _ stx (by exact hlt) hpr).1
        · exact IterResult.noConfusion h
  case rateLimited => exact IterResult.noConfusion h
  case transient =>
    split at h
    · injection h with h1
      subst h1
      exact le_of_lt hlt
    · exact IterResult.noConfusion h
  case permanent =>
    injection h with h1
    subst h1
    exact le_of_lt hlt
  case unclassified => exact IterResult.noConfusion h

/-- The whole-run bound: starting strictly below a positive limit, every
non-crashed outcome of the loop is at or below the limit (running the
loop against every prefix of interactions gives the bound at every
intermediate point). -/
theorem run_captured_le {args : Args} (hpos : 0 < args.limit) :
    ∀ (fs : List FetchResult) (st : LoopState), (st.captured : Int) < args.limit →
      ∀ n, capturedOfResult (run args fs st) = some n → (n : Int) ≤ args.limit := by
  intro fs
  induction fs with
  | nil =>
    intro st hlt n h
    simp only [run] at h
    split at h <;>
      (simp only [capturedOfResult, Option.some.injEq] at h; subst h; exact le_of_lt hlt)
  | cons f rest ih =>
    intro st hlt n h
    simp only [run] at h
    split at h
    · simp only [capturedOfResult, Option.some.injEq] at h
      subst h
      exact le_of_lt hlt
    · split at h
      · rename_i st1 hit
        exact ih st1 (iterate_next_captured hpos hlt hit) n h
      · rename_i st1 hit
        simp only [capturedOfResult, Option.some.injEq] at h
        subst h
        exact iterate_done_captured hpos hlt hit
      · simp only [capturedOfResult] at h
        exact Option.noConfusion h

/-- Claim C6: with a positive capture limit N, (1) captured never exceeds
N in any non-crashed run outcome from any state below N (hence at every
point of a run, since every prefix of the interaction script is itself a
script); (2) the record step that reaches exactly N is forwarded (its
envelope is the one appended to the Kafka sends) and sets finished; and
(3) a record step that sets finished makes the page processing stop
immediately, discarding the remaining records of the page. -/
theorem c6_capture_limit :
    ∀ args : Args, 0 < args.limit →
      (∀ (fs : List FetchResult) (st : LoopState) (n : Nat),
        (st.captured : Int) < args.limit →
        capturedOfResult (run args fs st) = some n → (n : Int) ≤ args.limit) ∧
      (∀ (st : LoopState) (s : Status) (st' : LoopState),
        (st.captured : Int) < args.limit →
        recordStep args st s = Except.ok st' → (st'.captured : Int) = args.limit →
        st'.finished = true ∧
        (args.kafka_brokers = true →
          st'.sent = st.sent ++ [(s.id_str, process_entry s)])) ∧
      (∀ (st : LoopState) (s : Status) (rest : List Status) (st' : LoopState),
        recordStep args st s = Except.ok st' → st'.finished = true →
        processRecords args st (s :: rest) = Except.ok st') := by
  intro args hpos
  refine ⟨fun fs st n hlt h => run_captured_le hpos fs st hlt n h, ?_, ?_⟩
  · intro st s st' hlt h hcap
    obtain ⟨i, valid, hid, hv, rfl⟩ := recordStep_ok_char h
    rw [applyRecord_captured] at hcap
    cases valid with
    | false =>
      simp at hcap
      omega
    | true =>
      simp at hcap
      constructor
      · rw [applyRecord_finished]
        have hT : intTruthy args.limit = true := by
          simp only [intTruthy, decide_eq_true_eq]
          omega
        have hc1 : cond1 args (st.captured + 1) = true := by
          simp only [cond1, hT, Bool.true_and, decide_eq_true_eq]
          omega
        simp [hc1]
      · intro hk
        rw [applyRecord_sent]
        simp [hk]
  · intro st s rest st' h hfin
    simp only [processRecords, h]
    rw [if_pos hfin]

/-- Witness for c6_capture_limit: limit 2, a single page of three valid
records — the run captures exactly 2, the second record's step reaches
the limit, is forwarded, sets finished, and the page stops there. -/
theorem c6_capture_limit_witness :
    ((2 : Nat) : Int) ≤ (2 : Int) ∧
    ((⟨7, 2, true, [⟨some 9, some "a", "9", "u"⟩, ⟨some 8, some "b", "8", "u"⟩,
        ⟨some 7, some "c", "7", "u"⟩], 0,
        [("9", ⟨"9", "https://twitter.com/u/status/9"⟩),
         ("8", ⟨"8", "https://twitter.com/u/status/8"⟩)], [], 0, 1⟩ :
        LoopState).finished = true ∧
      (true = true →
        (⟨7, 2, true, [⟨some 9, some "a", "9", "u"⟩, ⟨some 8, some "b", "8", "u"⟩,
          ⟨some 7, some "c", "7", "u"⟩], 0,
          [("9", ⟨"9", "https://twitter.com/u/status/9"⟩),
           ("8", ⟨"8", "https://twitter.com/u/status/8"⟩)], [], 0, 1⟩ :
          LoopState).sent =
        [("9", ⟨"9", "https://twitter.com/u/status/9"⟩)] ++
          [((⟨some 8, some "b", "8", "u"⟩ : Status).id_str,
            process_entry ⟨some 8, some "b", "8", "u"⟩)])) ∧
    processRecords ⟨2, 0, 0, true, false⟩
        ⟨8, 1, false, [⟨some 9, some "a", "9", "u"⟩, ⟨some 8, some "b", "8", "u"⟩,
          ⟨some 7, some "c", "7", "u"⟩], 0,
          [("9", ⟨"9", "https://twitter.com/u/status/9"⟩)], [], 0, 1⟩
        [⟨some 8, some "b", "8", "u"⟩, ⟨some 7, some "c", "7", "u"⟩] =
      Except.ok
        ⟨7, 2, true, [⟨some 9, some "a", "9", "u"⟩, ⟨some 8, some "b", "8", "u"⟩,
          ⟨some 7, some "c", "7", "u"⟩], 0,
          [("9", ⟨"9", "https://twitter.com/u/status/9"⟩),
           ("8", ⟨"8", "https://twitter.com/u/status/8"⟩)], [], 0, 1⟩ :=
  ⟨(c6_capture_limit ⟨2, 0, 0, true, false⟩ (by decide)).1
      [FetchResult.page [⟨some 9, some "a", "9", "u"⟩, ⟨some 8, some "b", "8", "u"⟩,
        ⟨some 7, some "c", "7", "u"⟩]]
      (initState ⟨2, 0, 0, true, false⟩) 2 (by decide) rfl,
   (c6_capture_limit ⟨2, 0, 0, true, false⟩ (by decide)).2.1
      ⟨8, 1, false, [⟨some 9, some "a", "9", "u"⟩, ⟨some 8, some "b", "8", "u"⟩,
        ⟨some 7, some "c", "7", "u"⟩], 0,
        [("9", ⟨"9", "https://twitter.com/u/status/9"⟩)], [], 0, 1⟩
      ⟨some 8, some "b", "8", "u"⟩
      ⟨7, 2, true, [⟨some 9, some "a", "9", "u"⟩, ⟨some 8, some "b", "8", "u"⟩,
        ⟨some 7, some "c", "7", "u"⟩], 0,
        [("9", ⟨"9", "https://twitter.com/u/status/9"⟩),
         ("8", ⟨"8", "https://twitter.com/u/status/8"⟩)], [], 0, 1⟩
      (by decide) rfl (by decide),
   (c6_capture_limit ⟨2, 0, 0, true, false⟩ (by decide)).2.2
      ⟨8, 1, false, [⟨some 9, some "a", "9", "u"⟩, ⟨some 8, some "b", "8", "u"⟩,
        ⟨some 7, some "c", "7", "u"⟩], 0,
        [("9", ⟨"9", "https://twitter.com/u/status/9"⟩)], [], 0, 1⟩
      ⟨some 8, some "b", "8", "u"⟩ [⟨some 7, some "c", "7", "u"⟩]
      ⟨7, 2, true, [⟨some 9, some "a", "9", "u"⟩, ⟨some 8, some "b", "8", "u"⟩,
        ⟨some 7, some "c", "7", "u"⟩], 0,
        [("9", ⟨"9", "https://twitter.com/u/status/9"⟩),
         ("8", ⟨"8", "https://twitter.com/u/status/8"⟩)], [], 0, 1⟩
      rfl rfl⟩

/-- The `elif tts > reset: tts = reset` update computes a minimum. -/
theorem tts_update_eq_min (tts r : Int) : (if tts > r then r else tts) = min tts r := by
  rcases lt_or_ge r tts with hlt | hge
  · rw [if_pos hlt, min_eq_right (le_of_lt hlt)]
  · rw [if_neg (not_lt.mpr hge), min_eq_left hge]

/-- When every successful probe reports zero remaining requests, the
credential loop sleeps for the fold of `min` over the per-credential
`reset - now + 1` values, starting from the incoming `tts`. -/
theorem acquireLoop_all_exhausted (now : Int) :
    ∀ (probes : List ProbeResult) (i : Nat) (tts : Int),
      (∀ p ∈ probes, probeExhausted p = true) →
      acquireLoop now i tts probes =
        AcquireResult.sleepFor ((probes.filterMap (probeDelta now)).foldl min tts) := by
  intro probes
  induction probes with
  | nil => intro i tts _; rfl
  | cons p rest ih =>
    intro i tts hall
    cases p with
    | ok r reset =>
      have hr : r = 0 := by
        have h0 := hall (ProbeResult.ok r reset) (by simp)
        simpa [probeExhausted] using h0
      subst hr
      simp only [acquireLoop, probeDelta, List.filterMap_cons_some, List.foldl_cons]
      rw [if_neg (by simp), tts_update_eq_min]
      exact ih (i + 1) (min tts (reset - now + 1)) (fun p hp => hall p (by simp [hp]))
    | rateLimitError =>
      simp only [acquireLoop, probeDelta, List.filterMap_cons_none]
      exact ih (i + 1) tts (fun p hp => hall p (by simp [hp]))
    | err =>
      simp only [acquireLoop, probeDelta, List.filterMap_cons_none]
      exact ih (i + 1) tts (fun p hp => hall p (by simp [hp]))

/-- The credential loop returns index j only when the j-th probe (counted
from the starting index) reported a positive remaining quota. -/
theorem acquireLoop_acquired_char (now : Int) :
    ∀ (probes : List ProbeResult) (i0 : Nat) (tts : Int) (j : Nat),
      acquireLoop now i0 tts probes = AcquireResult.acquired j →
      ∃ (k : Nat) (r : Nat) (reset : Int),
        probes.get? k = some (ProbeResult.ok r reset) ∧ 0 < r ∧ j = i0 + k := by
  intro probes
  induction probes with
  | nil => intro i0 tts j h; exact AcquireResult.noConfusion h
  | cons p rest ih =>
    intro i0 tts j h
    cases p with
    | ok r reset =>
      simp only [acquireLoop] at h
      by_cases hr : r ≠ 0
      · rw [if_pos hr] at h
        injection h with h1
        exact ⟨0, r, reset, rfl, Nat.pos_of_ne_zero hr, by omega⟩
      · rw [if_neg hr] at h
        obtain ⟨k, r2, reset2, hget, hpos2, hj⟩ := ih (i0 + 1) _ j h
        exact ⟨k + 1, r2, reset2, by simpa using hget, hpos2, by omega⟩
    | rateLimitError =>
      simp only [acquireLoop] at h
      obtain ⟨k, r2, reset2, hget, hpos2, hj⟩ := ih (i0 + 1) tts j h
      exact ⟨k + 1, r2, reset2, by simpa using hget, hpos2, by omega⟩
    | err =>
      simp only [acquireLoop] at h
      obtain ⟨k, r2, reset2, hget, hpos2, hj⟩ := ih (i0 + 1) tts j h
      exact ⟨k + 1, r2, reset2, by simpa using hget, hpos2, by omega⟩

/-- Claim C8 amended: when every successfully probed credential is
exhausted, one pass sleeps for the minimum of 900 (the per-pass cap
`tts = 900`) and the `reset - now + 1` values of the successfully probed
credentials — not the plain minimum over all credentials — and a
credential is returned only when its probe reports a positive remaining
quota. -/
theorem c8_amended :
    ∀ (now : Int) (probes : List ProbeResult),
      ((∀ p ∈ probes, probeExhausted p = true) →
        init_twitter_api_pass now probes =
          AcquireResult.sleepFor ((probes.filterMap (probeDelta now)).foldl min 900)) ∧
      (∀ j, init_twitter_api_pass now probes = AcquireResult.acquired j →
        ∃ (r : Nat) (reset : Int),
          probes.get? j = some (ProbeResult.ok r reset) ∧ 0 < r) := by
  intro now probes
  constructor
  · intro hall
    exact acquireLoop_all_exhausted now probes 0 900 hall
  · intro j h
    obtain ⟨k, r, reset, hget, hpos2, hj⟩ := acquireLoop_acquired_char now probes 0 900 j h
    have hk : j = k := by omega
    subst hk
    exact ⟨r, reset, hget, hpos2⟩

/-- Witness for c8_amended: an exhausted credential 101 seconds from
reset plus a failing probe sleep min 900 101 = 101; a credential with 5
remaining requests is acquired. -/
theorem c8_amended_witness :
    init_twitter_api_pass 0 [ProbeResult.ok 0 100, ProbeResult.err] =
      AcquireResult.sleepFor
        (([ProbeResult.ok 0 100, ProbeResult.err].filterMap (probeDelta 0)).foldl min 900) ∧
    ∃ (r : Nat) (reset : Int),
      ([ProbeResult.ok 5 50] : List ProbeResult).get? 0 =
        some (ProbeResult.ok r reset) ∧ 0 < r :=
  ⟨(c8_amended 0 [ProbeResult.ok 0 100, ProbeResult.err]).1 (by decide),
   (c8_amended 0 [ProbeResult.ok 5 50]).2 0 rfl⟩

end TwythonKafka
